import Mathlib

/-!
Shallow embedding of the dipcoin-perp-client-ts SDK.

The embedding follows the TypeScript sources: the HTTP form serialization
of `HttpClient.postForm`, and the five public operations of
`DipCoinPerpSDK` (`placeOrder`, `cancelOrder`, `getAccountInfo`,
`getPositions`, `getOpenOrders`).  JavaScript runtime behaviour that the
source relies on (truthiness of numbers and strings, `||` defaulting,
`JSON.stringify`, URL-encoded form bodies) is made explicit.  External
effects (the wall clock read by `Date.now()`, the signing primitive and
the HTTP transport) are modelled as an explicit environment, and each
operation additionally returns the list of network requests it issued.
-/

namespace DipCoinPerp

/-- A JavaScript `number | string` input value, as used for quantity,
price and leverage fields of an order intent. -/
inductive JSNum where
  | num (q : ℚ)
  | str (s : String)
deriving DecidableEq, Repr

/-- JavaScript truthiness of a `number | string` value: the number `0`
and the empty string are falsy, everything else is truthy. -/
def JSNum.truthy : JSNum → Bool
  | .num q => q != 0
  | .str s => s != ""

/-- Truthiness of an optional `number | string` field: `undefined` is
falsy, a present value uses its own truthiness. -/
def optTruthy (v : Option JSNum) : Bool :=
  match v with
  | none => false
  | some n => n.truthy

/-- JavaScript `a || b` on `number | string` values. -/
def jsOr (a b : JSNum) : JSNum :=
  if a.truthy then a else b

/-- Value of a digit character list, `none` if empty or not all digits. -/
def digitsVal (cs : List Char) : Option ℕ :=
  match cs with
  | [] => none
  | _ =>
    cs.foldl
      (fun acc c =>
        match acc with
        | none => none
        | some n => if c.isDigit then some (n * 10 + (c.toNat - 48)) else none)
      (some 0)

/-- Split a character list at the first `.`: the part before it and,
when a dot is present, the part after it. -/
def breakDot : List Char → List Char × Option (List Char)
  | [] => ([], none)
  | c :: cs =>
    if c = '.' then ([], some cs)
    else
      let r := breakDot cs
      (c :: r.1, r.2)

/-- Parse a plain decimal string (optional leading minus, optional
fractional part) into an exact scaled-integer value: a pair
`(numerator, denominator)` whose denominator is the power of ten given
by the number of fractional digits. -/
def parseDecimal (s : String) : Option (ℤ × ℕ) :=
  let cs := s.data
  let neg : Bool := match cs with
    | '-' :: _ => true
    | _ => false
  let body := if neg then cs.drop 1 else cs
  let v : Option (ℕ × ℕ) :=
    match breakDot body with
    | (intPart, none) => (digitsVal intPart).map (fun n => (n, 0))
    | (intPart, some rest) =>
      if rest.contains '.' then none
      else
        match digitsVal (match intPart with | [] => ['0'] | cs => cs), digitsVal rest with
        | some i, some f => some (i * 10 ^ rest.length + f, rest.length)
        | _, _ => none
  v.map (fun iv => ((if neg then -(iv.1 : ℤ) else (iv.1 : ℤ)), 10 ^ iv.2))

/-- Exact value of a `number | string` input as a numerator/denominator
pair; an unparsable string is read as `0` (such inputs never occur on
the verified paths). -/
def JSNum.scaled : JSNum → ℤ × ℕ
  | .num q => (q.num, q.den)
  | .str s => (parseDecimal s).getD (0, 1)

/-- Truncation of `a / d` toward zero (`d` positive). -/
def truncDiv (a : ℤ) (d : ℕ) : ℤ :=
  if 0 ≤ a then a / (d : ℤ) else -((-a) / (d : ℤ))

/-- Modelled from the spec: `formatNormalToWeiBN` of `src/utils` (the
utils module is not under `src/`).  The numeric normalizer scales a human
decimal by a fixed power-of-ten factor, in an exact decimal/bignum
representation, and truncates toward zero; the factor is taken as
`10 ^ 9`. -/
def formatNormalToWeiBN (n : JSNum) : ℤ :=
  truncDiv (n.scaled.1 * 10 ^ 9) n.scaled.2

/-- Modelled from the spec: `formatNormalToWei` of `src/utils` (the utils
module is not under `src/`): the decimal-string rendering of the scaled
fixed-point value. -/
def formatNormalToWei (n : JSNum) : String :=
  toString (formatNormalToWeiBN n)

/-- Render the fractional digits of `n / d` (long division, bounded
number of digits, matching the finite precision of a JS number). -/
def fracDigits : ℕ → ℕ → ℕ → String
  | 0, _, _ => ""
  | _, 0, _ => ""
  | fuel + 1, n, d =>
    let n10 := n * 10
    toString (n10 / d) ++ fracDigits fuel (n10 % d) d

/-- Decimal rendering of a rational, used for JS number-to-string
conversion. -/
def ratToString (q : ℚ) : String :=
  let sgn := if q.num < 0 then "-" else ""
  let n := q.num.natAbs
  let i := n / q.den
  let r := n % q.den
  if r = 0 then sgn ++ toString i
  else sgn ++ toString i ++ "." ++ fracDigits 17 r q.den

/-- A JavaScript value as it can appear in a flat request-parameter
record handed to `HttpClient.postForm`. -/
inductive JSVal where
  | undef
  | null
  | bool (b : Bool)
  | num (q : ℚ)
  | str (s : String)
  | arr (xs : List JSVal)
  | obj (fields : List (String × JSVal))

/-- Join a list of strings with a separator. -/
def joinSep (sep : String) : List String → String
  | [] => ""
  | [x] => x
  | x :: y :: xs => x ++ sep ++ joinSep sep (y :: xs)

/-- Escape a string for a JSON string literal (quote and backslash). -/
def jsonEscape (s : String) : String :=
  s.data.foldl
    (fun acc c =>
      if c = '"' then acc ++ "\\\""
      else if c = '\\' then acc ++ "\\\\"
      else acc.push c)
    ""

/-- A JSON string literal. -/
def jsonQuote (s : String) : String :=
  "\"" ++ jsonEscape s ++ "\""

mutual

/-- `JSON.stringify` on the embedded JavaScript values.  Inside an array
`undefined` serializes as `null`; inside an object an `undefined` field
is omitted (in `postForm` only object-typed values are stringified). -/
def jsonStringify : JSVal → String
  | .undef => "null"
  | .null => "null"
  | .bool b => if b then "true" else "false"
  | .num q => ratToString q
  | .str s => jsonQuote s
  | .arr xs => "[" ++ jsonArrBody xs ++ "]"
  | .obj fields => "\x7b" ++ joinSep "," (jsonObjFields fields) ++ "\x7d"

/-- Comma-separated serialization of a JSON array body. -/
def jsonArrBody : List JSVal → String
  | [] => ""
  | [x] => jsonStringify x
  | x :: y :: xs => jsonStringify x ++ "," ++ jsonArrBody (y :: xs)

/-- Serialized `key:value` pieces of a JSON object, skipping fields
whose value is `undefined`. -/
def jsonObjFields : List (String × JSVal) → List String
  | [] => []
  | (k, v) :: fs =>
    match v with
    | .undef => jsonObjFields fs
    | w => (jsonQuote k ++ ":" ++ jsonStringify w) :: jsonObjFields fs

end

/-- `value === undefined || value === null`, the values `postForm`
omits from the serialized form body. -/
def isNullish : JSVal → Bool
  | .undef => true
  | .null => true
  | _ => false

/-- `typeof value === "object"` for the values that survive the nullish
filter (`typeof null` is also `"object"`, but `null` is filtered out
before this test is reached). -/
def isObjectType : JSVal → Bool
  | .arr _ => true
  | .obj _ => true
  | _ => false

/-- JavaScript `String(value)` for non-object values. -/
def jsValToString : JSVal → String
  | .undef => "undefined"
  | .null => "null"
  | .bool b => if b then "true" else "false"
  | .num q => ratToString q
  | .str s => s
  | .arr _ => ""
  | .obj _ => ""

/-- The string appended for one form field: objects are
`JSON.stringify`-ed, everything else goes through `String(value)`. -/
def formFieldValue (v : JSVal) : String :=
  if isObjectType v then jsonStringify v else jsValToString v

/-- The field list accumulated by `postForm`: iterate the record keys in
order and append each non-nullish field to the `URLSearchParams`. -/
def postFormEntries (data : List (String × JSVal)) : List (String × String) :=
  data.foldl
    (fun acc kv =>
      if isNullish kv.2 then acc else acc ++ [(kv.1, formFieldValue kv.2)])
    []

/-- Uppercase hexadecimal digit. -/
def hexDigit (n : ℕ) : Char :=
  if n < 10 then Char.ofNat (48 + n) else Char.ofNat (55 + n)

/-- Characters `application/x-www-form-urlencoded` leaves unescaped. -/
def isFormSafe (c : Char) : Bool :=
  (c.isAlpha || c.isDigit) || c = '*' || c = '-' || c = '.' || c = '_'

/-- The UTF-8 bytes of one character. -/
def utf8Bytes (c : Char) : List ℕ :=
  let n := c.toNat
  if n < 128 then [n]
  else if n < 2048 then [192 + n / 64, 128 + n % 64]
  else if n < 65536 then [224 + n / 4096, 128 + (n / 64) % 64, 128 + n % 64]
  else [240 + n / 262144, 128 + (n / 4096) % 64, 128 + (n / 64) % 64, 128 + n % 64]

/-- Percent-encoding of one byte. -/
def percentByte (b : ℕ) : String :=
  "%" ++ String.mk [hexDigit (b / 16), hexDigit (b % 16)]

/-- Form-encoding of one character: space becomes `+`, safe characters
stay, everything else is percent-encoded per UTF-8 byte. -/
def formEncodeChar (c : Char) : String :=
  if c = ' ' then "+"
  else if isFormSafe c then String.singleton c
  else String.join ((utf8Bytes c).map percentByte)

/-- `application/x-www-form-urlencoded` encoding of a string. -/
def formEncode (s : String) : String :=
  String.join (s.data.map formEncodeChar)

/-- `URLSearchParams.toString()`: ampersand-joined `key=value` pairs,
both sides form-encoded. -/
def urlsearchToString (entries : List (String × String)) : String :=
  joinSep "&" (entries.map (fun kv => formEncode kv.1 ++ "=" ++ formEncode kv.2))

/-- The serialized body `HttpClient.postForm` sends:
`formData.toString()` after appending every non-nullish field. -/
def postFormBody (data : List (String × JSVal)) : String :=
  urlsearchToString (postFormEntries data)

/-- Order side, the string enum `OrderSide` of `src/types`. -/
inductive OrderSide where
  | BUY
  | SELL
deriving DecidableEq, Repr

/-- The enum value string of an order side (both are nonempty, hence
always truthy in the presence validation). -/
def OrderSide.toStr : OrderSide → String
  | .BUY => "BUY"
  | .SELL => "SELL"

/-- Order type, the string enum `OrderType` of `src/types`. -/
inductive OrderType where
  | MARKET
  | LIMIT
deriving DecidableEq, Repr

/-- The enum value string of an order type. -/
def OrderType.toStr : OrderType → String
  | .MARKET => "MARKET"
  | .LIMIT => "LIMIT"

/-- `PlaceOrderParams` of `src/types`: the caller-supplied order intent.
Optional fields are `Option`; `quantity`, `leverage` and the price
fields are `number | string` values. -/
structure PlaceOrderParams where
  symbol : String
  side : OrderSide
  orderType : OrderType
  quantity : JSNum
  price : Option JSNum := none
  leverage : JSNum
  market : String
  reduceOnly : Option Bool := none
  clientId : Option String := none
  tpTriggerPrice : Option JSNum := none
  tpOrderType : Option OrderType := none
  tpOrderPrice : Option JSNum := none
  slTriggerPrice : Option JSNum := none
  slOrderType : Option OrderType := none
  slOrderPrice : Option JSNum := none
deriving DecidableEq, Repr

/-- `CancelOrderParams` of `src/types`; `orderHashes` is `Option` so
that an absent list can be distinguished from an empty one. -/
structure CancelOrderParams where
  symbol : String
  orderHashes : Option (List String) := none
  parentAddress : Option String := none
deriving DecidableEq, Repr

/-- A canonical order object, one per signed leg (main, TP, SL), with
the field layout built inside `placeOrder`.  BigNumber fields are
integers (fixed-point values and the millisecond salt). -/
structure Order where
  market : String
  creator : String
  isLong : Bool
  reduceOnly : Bool
  postOnly : Bool
  orderbookOnly : Bool
  ioc : Bool
  quantity : ℤ
  price : ℤ
  leverage : ℤ
  expiration : ℤ
  salt : ℤ
deriving DecidableEq, Repr

/-- The uniform result type `SDKResponse` of `src/types`. -/
structure SDKResponse (α : Type) where
  status : Bool
  data : Option α := none
  error : Option String := none
deriving DecidableEq, Repr

/-- The server envelope for order endpoints (`OrderResponse`): code,
opaque payload, optional message. -/
structure OrderRespT where
  code : ℕ
  data : Option String := none
  message : Option String := none
deriving DecidableEq, Repr

/-- The server's account-info payload, each numeric field possibly
absent. -/
structure AcctData where
  walletBalance : Option String := none
  totalUnrealizedProfit : Option String := none
  accountValue : Option String := none
  freeCollateral : Option String := none
  totalMargin : Option String := none
deriving DecidableEq, Repr

/-- The server envelope for the account-info endpoint. -/
structure AcctRespT where
  code : ℕ
  data : Option AcctData := none
  message : Option String := none
deriving DecidableEq, Repr

/-- The `AccountInfo` shape returned to the caller. -/
structure AccountInfo where
  walletBalance : String
  totalUnrealizedProfit : String
  accountValue : String
  freeCollateral : String
  totalMargin : String
deriving DecidableEq, Repr

/-- The shapes the list endpoints' `data` field can arrive in: absent, a
bare list, or a `\x7bdata: [...]\x7d` envelope whose inner field may
itself be absent. -/
inductive RespData (α : Type) where
  | missing
  | arr (xs : List α)
  | wrapped (inner : Option (List α))
deriving DecidableEq, Repr

/-- The server envelope for the positions / open-orders endpoints. -/
structure ListRespT (α : Type) where
  code : ℕ
  data : RespData α := .missing
  message : Option String := none
deriving DecidableEq, Repr

/-- The normalization `Array.isArray(d) ? d : d?.data || []` applied to
the list endpoints' payload (an array is truthy even when empty). -/
def RespData.normalize {α : Type} : RespData α → List α
  | .missing => []
  | .arr xs => xs
  | .wrapped (some xs) => xs
  | .wrapped none => []

/-- An opaque position record. -/
structure Position where
  raw : String
deriving DecidableEq, Repr

/-- An opaque open-order record. -/
structure OpenOrder where
  raw : String
deriving DecidableEq, Repr

/-- Outcome of a fallible external call: a thrown error message or a
value. -/
inductive ExcOr (α : Type) where
  | exc (msg : String)
  | ok (a : α)
deriving DecidableEq, Repr

/-- Modelled from the spec: the endpoint constants of `src/constants`
(not under `src/`); the concrete paths are opaque identifiers. -/
def PLACE_ORDER : String := "PLACE_ORDER"

/-- Modelled from the spec: the cancel-order endpoint constant of
`src/constants` (not under `src/`). -/
def CANCEL_ORDER : String := "CANCEL_ORDER"

/-- Modelled from the spec: the account-info endpoint constant of
`src/constants` (not under `src/`). -/
def GET_ACCOUNT_INFO : String := "GET_ACCOUNT_INFO"

/-- Modelled from the spec: the positions endpoint constant of
`src/constants` (not under `src/`). -/
def GET_POSITIONS : String := "GET_POSITIONS"

/-- Modelled from the spec: the open-orders endpoint constant of
`src/constants` (not under `src/`). -/
def GET_OPEN_ORDERS : String := "GET_OPEN_ORDERS"

/-- A network request issued through the transport client. -/
inductive Request where
  | postForm (endpoint : String) (fields : List (String × JSVal))
  | get (endpoint : String) (query : List (String × String))

/-- The external world of one SDK call: `clock i` is the value returned
by the `i`-th `Date.now()` call, `sign` is the signing primitive over
the serialized message (it may throw), and the remaining fields are the
transport's response (or thrown error) per endpoint. -/
structure Env where
  clock : ℕ → ℕ
  sign : String → ExcOr String
  placeResp : List (String × JSVal) → ExcOr OrderRespT
  cancelResp : List (String × JSVal) → ExcOr OrderRespT
  acctResp : ExcOr AcctRespT
  positionsResp : List (String × String) → ExcOr (ListRespT Position)
  openOrdersResp : List (String × String) → ExcOr (ListRespT OpenOrder)

/-- Modelled from the spec: `formatError` of `src/utils` (not under
`src/`) performs best-effort message extraction; on an `Error` it is the
error's message string. -/
def formatError (msg : String) : String := msg

/-- JavaScript `m || fallback` on an optional message string (an empty
message also falls back). -/
def msgOr (m : Option String) (fallback : String) : String :=
  match m with
  | some s => if s == "" then fallback else s
  | none => fallback

/-- Modelled from the spec: `OrderSigner.getOrderMessageForUIWallet` is
an external collaborator whose serialization format this SDK treats as
opaque; modelled as a concrete rendering of the order fields. -/
def getOrderMessageForUIWallet (o : Order) : String :=
  "order:" ++ o.market ++ "," ++ o.creator ++ "," ++ toString o.isLong ++ ","
    ++ toString o.reduceOnly ++ "," ++ toString o.postOnly ++ ","
    ++ toString o.orderbookOnly ++ "," ++ toString o.ioc ++ ","
    ++ toString o.quantity ++ "," ++ toString o.price ++ ","
    ++ toString o.leverage ++ "," ++ toString o.expiration ++ ","
    ++ toString o.salt

/-- The presence validation of `placeOrder`
(`!symbol || !side || !orderType || !quantity || !leverage`): `side` and
`orderType` are nonempty enum strings, hence always truthy; `symbol`,
`quantity` and `leverage` use JS truthiness. -/
def missingParams (p : PlaceOrderParams) : Bool :=
  p.symbol == "" || !p.quantity.truthy || !p.leverage.truthy

/-- The main order's salt: the first `Date.now()` reading. -/
def mainSaltOf (env : Env) : ℤ :=
  (env.clock 0 : ℤ)

/-- The TP leg's salt, `Date.now() + 1` at the second clock read,
present exactly when the TP trigger price is truthy. -/
def tpSaltOf (env : Env) (p : PlaceOrderParams) : Option ℤ :=
  if optTruthy p.tpTriggerPrice then some ((env.clock 1 : ℤ) + 1) else none

/-- The SL leg's salt, `Date.now() + 2` at the next clock read (the
third when a TP leg was built, the second otherwise), present exactly
when the SL trigger price is truthy. -/
def slSaltOf (env : Env) (p : PlaceOrderParams) : Option ℤ :=
  if optTruthy p.slTriggerPrice then
    some ((env.clock (if optTruthy p.tpTriggerPrice then 2 else 1) : ℤ) + 2)
  else none

/-- The canonical main order object built by `placeOrder`. -/
def buildMainOrder (wallet : String) (p : PlaceOrderParams) (saltBN : ℤ) : Order :=
  let priceBN : ℤ :=
    if optTruthy p.price then formatNormalToWeiBN (p.price.getD (.num 0)) else 0
  { market := if p.market == "" then p.symbol else p.market
    creator := wallet
    isLong := p.side == .BUY
    reduceOnly := p.reduceOnly.getD false
    postOnly := false
    orderbookOnly := true
    ioc := false
    quantity := formatNormalToWeiBN p.quantity
    price := if p.orderType == .LIMIT then priceBN else 0
    leverage := formatNormalToWeiBN p.leverage
    expiration := 0
    salt := saltBN }

/-- The TP companion order built when the TP trigger price is truthy:
opposite side, reduce-only, price from `tpOrderPrice || tpTriggerPrice`
when the TP order type is LIMIT and zero when MARKET. -/
def buildTpOrder (wallet : String) (p : PlaceOrderParams) (order : Order)
    (tpSalt : ℤ) : Order :=
  let tpOrderType := p.tpOrderType.getD .MARKET
  let tpOrderPrice := p.tpOrderPrice.getD (.str "")
  let tpTrigger := p.tpTriggerPrice.getD (.str "")
  { market := order.market
    creator := wallet
    isLong := !order.isLong
    reduceOnly := true
    postOnly := false
    orderbookOnly := true
    ioc := false
    quantity := formatNormalToWeiBN p.quantity
    price :=
      if tpOrderType == .LIMIT then formatNormalToWeiBN (jsOr tpOrderPrice tpTrigger)
      else 0
    leverage := formatNormalToWeiBN p.leverage
    expiration := 0
    salt := tpSalt }

/-- The SL companion order, symmetric to the TP construction. -/
def buildSlOrder (wallet : String) (p : PlaceOrderParams) (order : Order)
    (slSalt : ℤ) : Order :=
  let slOrderType := p.slOrderType.getD .MARKET
  let slOrderPrice := p.slOrderPrice.getD (.str "")
  let slTrigger := p.slTriggerPrice.getD (.str "")
  { market := order.market
    creator := wallet
    isLong := !order.isLong
    reduceOnly := true
    postOnly := false
    orderbookOnly := true
    ioc := false
    quantity := formatNormalToWeiBN p.quantity
    price :=
      if slOrderType == .LIMIT then formatNormalToWeiBN (jsOr slOrderPrice slTrigger)
      else 0
    leverage := formatNormalToWeiBN p.leverage
    expiration := 0
    salt := slSalt }

/-- The TP leg as `placeOrder` builds it: present exactly when the TP
trigger price is truthy. -/
def tpLegOf (env : Env) (wallet : String) (p : PlaceOrderParams) : Option Order :=
  (tpSaltOf env p).map (buildTpOrder wallet p (buildMainOrder wallet p (mainSaltOf env)))

/-- The SL leg as `placeOrder` builds it: present exactly when the SL
trigger price is truthy. -/
def slLegOf (env : Env) (wallet : String) (p : PlaceOrderParams) : Option Order :=
  (slSaltOf env p).map (buildSlOrder wallet p (buildMainOrder wallet p (mainSaltOf env)))

/-- The flat wire-request record `placeOrder` assembles: the main-order
fields, then the TP block (with the literal `triggerWay = "oracle"`)
when a TP leg was built and signed, then the SL block likewise. -/
def placeRequestParams (wallet : String) (p : PlaceOrderParams) (saltBN : ℤ)
    (orderSignature : String) (tpSig : Option String) (tpSalt : Option ℤ)
    (slSig : Option String) (slSalt : Option ℤ) : List (String × JSVal) :=
  let base : List (String × JSVal) := [
    ("symbol", .str p.symbol),
    ("side", .str p.side.toStr),
    ("orderType", .str p.orderType.toStr),
    ("quantity", .str (formatNormalToWei p.quantity)),
    ("price", .str (if p.orderType == .LIMIT && optTruthy p.price then
        formatNormalToWei (p.price.getD (.num 0)) else "")),
    ("leverage", .str (formatNormalToWei p.leverage)),
    ("salt", .str (toString saltBN)),
    ("creator", .str wallet),
    ("clientId", .str (p.clientId.getD "")),
    ("reduceOnly", .str (if p.reduceOnly.getD false then "true" else "false")),
    ("orderSignature", .str orderSignature)]
  let tpPart : List (String × JSVal) :=
    if optTruthy p.tpTriggerPrice && tpSig.isSome then [
      ("tpOrderSignature", .str (tpSig.getD "")),
      ("tpTriggerPrice", .str (formatNormalToWei (p.tpTriggerPrice.getD (.str "")))),
      ("tpOrderType", .str (p.tpOrderType.getD .MARKET).toStr),
      ("tpOrderPrice", .str (if p.tpOrderType.getD .MARKET == .LIMIT then
          formatNormalToWei (jsOr (p.tpOrderPrice.getD (.str "")) (p.tpTriggerPrice.getD (.str "")))
        else "")),
      ("tpSalt", match tpSalt with
        | some s => .str (toString s)
        | none => .undef),
      ("triggerWay", .str "oracle")]
    else []
  let slPart : List (String × JSVal) :=
    if optTruthy p.slTriggerPrice && slSig.isSome then [
      ("slOrderSignature", .str (slSig.getD "")),
      ("slTriggerPrice", .str (formatNormalToWei (p.slTriggerPrice.getD (.str "")))),
      ("slOrderType", .str (p.slOrderType.getD .MARKET).toStr),
      ("slOrderPrice", .str (if p.slOrderType.getD .MARKET == .LIMIT then
          formatNormalToWei (jsOr (p.slOrderPrice.getD (.str "")) (p.slTriggerPrice.getD (.str "")))
        else "")),
      ("slSalt", match slSalt with
        | some s => .str (toString s)
        | none => .undef)]
    else []
  base ++ tpPart ++ slPart

/-- `DipCoinPerpSDK.placeOrder`: validation, canonical order and leg
construction, signing, wire-payload assembly, submission, and the
success / failure mapping; every thrown error is caught and mapped to a
failure result.  Returns the result and the issued requests. -/
def placeOrder (env : Env) (wallet : String) (p : PlaceOrderParams) :
    SDKResponse OrderRespT × List Request :=
  if missingParams p then
    (⟨false, none, some (formatError "Missing required order parameters")⟩, [])
  else if p.orderType == .LIMIT && !optTruthy p.price then
    (⟨false, none, some (formatError "Price is required for LIMIT orders")⟩, [])
  else
    let saltBN := mainSaltOf env
    let order := buildMainOrder wallet p saltBN
    let tpSalt := tpSaltOf env p
    let slSalt := slSaltOf env p
    let tpOrder := tpLegOf env wallet p
    let slOrder := slLegOf env wallet p
    match env.sign (getOrderMessageForUIWallet order) with
    | .exc m => (⟨false, none, some (formatError m)⟩, [])
    | .ok orderSignature =>
      let tpSigR : ExcOr (Option String) :=
        match tpOrder with
        | none => .ok none
        | some o =>
          match env.sign (getOrderMessageForUIWallet o) with
          | .exc m => .exc m
          | .ok s => .ok (some s)
      match tpSigR with
      | .exc m => (⟨false, none, some (formatError m)⟩, [])
      | .ok tpSig =>
        let slSigR : ExcOr (Option String) :=
          match slOrder with
          | none => .ok none
          | some o =>
            match env.sign (getOrderMessageForUIWallet o) with
            | .exc m => .exc m
            | .ok s => .ok (some s)
        match slSigR with
        | .exc m => (⟨false, none, some (formatError m)⟩, [])
        | .ok slSig =>
          let reqParams :=
            placeRequestParams wallet p saltBN orderSignature tpSig tpSalt slSig slSalt
          match env.placeResp reqParams with
          | .exc m =>
            (⟨false, none, some (formatError m)⟩, [Request.postForm PLACE_ORDER reqParams])
          | .ok resp =>
            if resp.code == 200 then
              (⟨true, some resp, none⟩, [Request.postForm PLACE_ORDER reqParams])
            else
              (⟨false, none, some (msgOr resp.message "Failed to place order")⟩,
                [Request.postForm PLACE_ORDER reqParams])

/-- The canonical cancellation message:
`JSON.stringify(\x7b orderHashes \x7d)`. -/
def cancelOrderMessage (hs : List String) : String :=
  jsonStringify (JSVal.obj [("orderHashes", JSVal.arr (hs.map JSVal.str))])

/-- `DipCoinPerpSDK.cancelOrder`: requires a non-empty identifier list,
signs the canonical cancellation message, submits symbol, JSON-encoded
list, signature and acting address (defaulting to the caller's own
wallet address); all thrown errors are caught. -/
def cancelOrder (env : Env) (wallet : String) (p : CancelOrderParams) :
    SDKResponse OrderRespT × List Request :=
  let parentAddress := p.parentAddress.getD wallet
  match p.orderHashes with
  | none => (⟨false, none, some (formatError "Order hashes are required")⟩, [])
  | some hs =>
    if hs.isEmpty then
      (⟨false, none, some (formatError "Order hashes are required")⟩, [])
    else
      match env.sign (cancelOrderMessage hs) with
      | .exc m => (⟨false, none, some (formatError m)⟩, [])
      | .ok signature =>
        let reqParams : List (String × JSVal) := [
          ("symbol", .str p.symbol),
          ("orderHashes", .str (jsonStringify (JSVal.arr (hs.map JSVal.str)))),
          ("signature", .str signature),
          ("parentAddress", .str parentAddress)]
        match env.cancelResp reqParams with
        | .exc m =>
          (⟨false, none, some (formatError m)⟩, [Request.postForm CANCEL_ORDER reqParams])
        | .ok resp =>
          if resp.code == 200 then
            (⟨true, some resp, none⟩, [Request.postForm CANCEL_ORDER reqParams])
          else
            (⟨false, none, some (msgOr resp.message "Failed to cancel order")⟩,
              [Request.postForm CANCEL_ORDER reqParams])

/-- JS `field || "0"`: an absent or empty numeric field maps to the
string `"0"`. -/
def orZero (m : Option String) : String :=
  match m with
  | some s => if s == "" then "0" else s
  | none => "0"

/-- `DipCoinPerpSDK.getAccountInfo`: success exactly on `code === 200`
with a truthy `data` object, mapping each numeric field with a `"0"`
default; all thrown errors are caught. -/
def getAccountInfo (env : Env) : SDKResponse AccountInfo × List Request :=
  let req := Request.get GET_ACCOUNT_INFO []
  match env.acctResp with
  | .exc m => (⟨false, none, some (formatError m)⟩, [req])
  | .ok resp =>
    match resp.data with
    | some d =>
      if resp.code == 200 then
        (⟨true, some
          { walletBalance := orZero d.walletBalance
            totalUnrealizedProfit := orZero d.totalUnrealizedProfit
            accountValue := orZero d.accountValue
            freeCollateral := orZero d.freeCollateral
            totalMargin := orZero d.totalMargin }, none⟩, [req])
      else
        (⟨false, none, some (msgOr resp.message "Failed to get account info")⟩, [req])
    | none =>
      (⟨false, none, some (msgOr resp.message "Failed to get account info")⟩, [req])

/-- The optional symbol filter becomes a query parameter only when
truthy (`if (symbol)`). -/
def symbolQuery (symbol : Option String) : List (String × String) :=
  match symbol with
  | some s => if s == "" then [] else [("symbol", s)]
  | none => []

/-- `DipCoinPerpSDK.getPositions`: GET with optional symbol filter,
normalizing a bare-list or wrapped payload to a flat list on
`code === 200`; all thrown errors are caught. -/
def getPositions (env : Env) (symbol : Option String) :
    SDKResponse (List Position) × List Request :=
  let params := symbolQuery symbol
  let req := Request.get GET_POSITIONS params
  match env.positionsResp params with
  | .exc m => (⟨false, none, some (formatError m)⟩, [req])
  | .ok resp =>
    if resp.code == 200 then
      (⟨true, some resp.data.normalize, none⟩, [req])
    else
      (⟨false, none, some (msgOr resp.message "Failed to get positions")⟩, [req])

/-- `DipCoinPerpSDK.getOpenOrders`: GET with optional symbol filter,
normalizing a bare-list or wrapped payload to a flat list on
`code === 200`; all thrown errors are caught. -/
def getOpenOrders (env : Env) (symbol : Option String) :
    SDKResponse (List OpenOrder) × List Request :=
  let params := symbolQuery symbol
  let req := Request.get GET_OPEN_ORDERS params
  match env.openOrdersResp params with
  | .exc m => (⟨false, none, some (formatError m)⟩, [req])
  | .ok resp =>
    if resp.code == 200 then
      (⟨true, some resp.data.normalize, none⟩, [req])
    else
      (⟨false, none, some (msgOr resp.message "Failed to get open orders")⟩, [req])

/-- A public operation's result is tagged: success carries a payload,
failure carries an error message. -/
def taggedResult {α : Type} (r : SDKResponse α) : Prop :=
  (r.status = true ∧ r.data.isSome = true) ∨ (r.status = false ∧ r.error.isSome = true)

/-- A concrete caller wallet address used by witnesses. -/
def wallet0 : String := "0xwallet"

/-- A benign environment: constant clock, successful signing and
transport. -/
def env0 : Env :=
  { clock := fun _ => 1000
    sign := fun _ => .ok "sig0"
    placeResp := fun _ => .ok ⟨200, none, none⟩
    cancelResp := fun _ => .ok ⟨200, none, none⟩
    acctResp := .ok ⟨200, some {}, none⟩
    positionsResp := fun _ => .ok ⟨200, .arr [], none⟩
    openOrdersResp := fun _ => .ok ⟨200, .arr [], none⟩ }

/-- An environment whose clock ticks one millisecond right after the
first `Date.now()` call. -/
def envTick : Env :=
  { env0 with clock := fun i => if i = 0 then 1000 else 1001 }

/-- An environment answering `getPositions` with a bare list. -/
def envPosBare : Env :=
  { env0 with positionsResp := fun _ => .ok ⟨200, .arr [⟨"pos1"⟩], none⟩ }

/-- An environment answering `getPositions` with the wrapped shape. -/
def envPosWrapped : Env :=
  { env0 with positionsResp := fun _ => .ok ⟨200, .wrapped (some [⟨"pos1"⟩]), none⟩ }

/-- A concrete account payload with a single present field. -/
def acctD : AcctData := { walletBalance := some "5" }

/-- An environment whose account endpoint answers code 200 with a
payload. -/
def envAcctD : Env := { env0 with acctResp := .ok ⟨200, some acctD, none⟩ }

/-- An environment whose account endpoint answers code 200 without a
`data` object. -/
def envAcctNoData : Env := { env0 with acctResp := .ok ⟨200, none, some "nope"⟩ }

/-- The market-order intent of the end-to-end scenario. -/
def intent5 : PlaceOrderParams :=
  { symbol := "BTC-PERP", side := .BUY, orderType := .MARKET,
    quantity := .str "0.01", leverage := .str "10", market := "0xabc" }

/-- The scenario intent extended with both trigger prices. -/
def intentBoth : PlaceOrderParams :=
  { intent5 with tpTriggerPrice := some (.str "51000"),
                 slTriggerPrice := some (.str "49000") }

/-- The scenario intent with a supplied-but-zero TP trigger price. -/
def intentTpZero : PlaceOrderParams :=
  { intent5 with tpTriggerPrice := some (.num 0) }

/-- The scenario intent with a TP trigger and LIMIT TP order type. -/
def intentTpLimit : PlaceOrderParams :=
  { intent5 with tpTriggerPrice := some (.str "51000"), tpOrderType := some .LIMIT }

/-- The scenario intent with a TP trigger and defaulted (MARKET) TP
order type. -/
def intentTpMarket : PlaceOrderParams :=
  { intent5 with tpTriggerPrice := some (.str "51000") }

/-- The scenario intent with the number `0` as quantity. -/
def intentQtyZero : PlaceOrderParams := { intent5 with quantity := .num 0 }

/-- The scenario intent with the number `0` as leverage. -/
def intentLevZero : PlaceOrderParams := { intent5 with leverage := .num 0 }

/-- The scenario intent with an empty-string symbol. -/
def intentNoSymbol : PlaceOrderParams := { intent5 with symbol := "" }

/-- A LIMIT intent whose price is the number `0`. -/
def intentLimitPriceZero : PlaceOrderParams :=
  { intent5 with orderType := .LIMIT, price := some (.num 0) }

/-- A LIMIT intent whose price is the empty string. -/
def intentLimitPriceEmpty : PlaceOrderParams :=
  { intent5 with orderType := .LIMIT, price := some (.str "") }

/-- A cancel intent with an empty identifier list. -/
def cancelEmpty : CancelOrderParams := { symbol := "BTC-PERP", orderHashes := some [] }

/-- A cancel intent with one identifier and no explicit acting
address. -/
def cancelOne : CancelOrderParams :=
  { symbol := "BTC-PERP", orderHashes := some ["0xhash1"] }

theorem postFormEntries_foldl (data : List (String × JSVal)) (acc : List (String × String)) :
    data.foldl
        (fun acc kv =>
          if isNullish kv.2 then acc else acc ++ [(kv.1, formFieldValue kv.2)]) acc
      = acc ++ (data.filter (fun kv => !isNullish kv.2)).map
          (fun kv => (kv.1, formFieldValue kv.2)) := by
  induction data generalizing acc with
  | nil => simp
  | cons kv rest ih =>
    by_cases h : isNullish kv.2 <;> simp [List.filter, h, ih]

theorem tagged_placeOrder (env : Env) (wallet : String) (p : PlaceOrderParams) :
    taggedResult (placeOrder env wallet p).1 := by
  unfold placeOrder
  dsimp only
  repeat' split
  all_goals simp [taggedResult]

theorem tagged_cancelOrder (env : Env) (wallet : String) (p : CancelOrderParams) :
    taggedResult (cancelOrder env wallet p).1 := by
  unfold cancelOrder
  dsimp only
  repeat' split
  all_goals simp [taggedResult]

theorem tagged_getAccountInfo (env : Env) :
    taggedResult (getAccountInfo env).1 := by
  unfold getAccountInfo
  dsimp only
  repeat' split
  all_goals simp [taggedResult]

theorem tagged_getPositions (env : Env) (sym : Option String) :
    taggedResult (getPositions env sym).1 := by
  unfold getPositions
  dsimp only
  repeat' split
  all_goals simp [taggedResult]

theorem tagged_getOpenOrders (env : Env) (sym : Option String) :
    taggedResult (getOpenOrders env sym).1 := by
  unfold getOpenOrders
  dsimp only
  repeat' split
  all_goals simp [taggedResult]

/-- C1 counterexample: when the wall clock advances one millisecond
between the first and second `Date.now()` calls of the same `placeOrder`
call, the TP salt is the main salt plus 2, not plus 1, so the claim that
the TP-leg salt always equals the main salt plus 1 fails on the code. -/
theorem tp_salt_not_main_salt_plus_one :
    optTruthy intentBoth.tpTriggerPrice = true ∧
    optTruthy intentBoth.slTriggerPrice = true ∧
    mainSaltOf envTick = 1000 ∧
    tpSaltOf envTick intentBoth = some 1002 ∧
    tpSaltOf envTick intentBoth ≠ some (mainSaltOf envTick + 1) := by
  decide

/-- C1 (amended): when both trigger prices are supplied truthy and the
three `Date.now()` readings are non-decreasing, the TP salt is the second
reading plus 1 and the SL salt the third reading plus 2; the three salts
are always pairwise distinct, and when all three readings fall in the
same millisecond the TP and SL salts are exactly the main salt plus 1 and
plus 2. -/
theorem tp_sl_salts_distinct (env : Env) (p : PlaceOrderParams)
    (htp : optTruthy p.tpTriggerPrice = true)
    (hsl : optTruthy p.slTriggerPrice = true)
    (h01 : env.clock 0 ≤ env.clock 1) (h12 : env.clock 1 ≤ env.clock 2) :
    tpSaltOf env p = some ((env.clock 1 : ℤ) + 1) ∧
    slSaltOf env p = some ((env.clock 2 : ℤ) + 2) ∧
    ((env.clock 1 : ℤ) + 1) ≠ mainSaltOf env ∧
    ((env.clock 2 : ℤ) + 2) ≠ mainSaltOf env ∧
    ((env.clock 1 : ℤ) + 1) ≠ ((env.clock 2 : ℤ) + 2) ∧
    (env.clock 1 = env.clock 0 → env.clock 2 = env.clock 0 →
      (env.clock 1 : ℤ) + 1 = mainSaltOf env + 1 ∧
      (env.clock 2 : ℤ) + 2 = mainSaltOf env + 2) := by
  refine ⟨by simp [tpSaltOf, htp], by simp [slSaltOf, htp, hsl], ?_, ?_, ?_, ?_⟩
  · simp only [mainSaltOf]
    omega
  · simp only [mainSaltOf]
    omega
  · omega
  · intro h1 h2
    simp only [mainSaltOf]
    omega

theorem tp_sl_salts_distinct_witness :
    tpSaltOf env0 intentBoth = some ((env0.clock 1 : ℤ) + 1) ∧
    slSaltOf env0 intentBoth = some ((env0.clock 2 : ℤ) + 2) ∧
    ((env0.clock 1 : ℤ) + 1) ≠ mainSaltOf env0 ∧
    ((env0.clock 2 : ℤ) + 2) ≠ mainSaltOf env0 ∧
    ((env0.clock 1 : ℤ) + 1) ≠ ((env0.clock 2 : ℤ) + 2) ∧
    (env0.clock 1 = env0.clock 0 → env0.clock 2 = env0.clock 0 →
      (env0.clock 1 : ℤ) + 1 = mainSaltOf env0 + 1 ∧
      (env0.clock 2 : ℤ) + 2 = mainSaltOf env0 + 2) :=
  tp_sl_salts_distinct env0 intentBoth (by decide) (by decide) (by decide) (by decide)

/-- C2: each of the five public operations returns a tagged result for
every environment and input — success carrying a payload or failure
carrying an error message — and, the embedding being total with every
modelled validation, signing and transport error caught at the facade,
no exception escapes to the caller. -/
theorem public_ops_return_tagged_results (env : Env) (wallet : String)
    (p : PlaceOrderParams) (pc : CancelOrderParams) (sym sym' : Option String) :
    taggedResult (placeOrder env wallet p).1 ∧
    taggedResult (cancelOrder env wallet pc).1 ∧
    taggedResult (getAccountInfo env).1 ∧
    taggedResult (getPositions env sym).1 ∧
    taggedResult (getOpenOrders env sym').1 :=
  ⟨tagged_placeOrder env wallet p, tagged_cancelOrder env wallet pc,
   tagged_getAccountInfo env, tagged_getPositions env sym,
   tagged_getOpenOrders env sym'⟩

/-- C3 counterexample: a TP trigger price that is supplied but equal to
the number `0` is falsy, so `placeOrder` builds no TP leg even though
the trigger price was supplied — the claimed "if and only if supplied"
fails on the code. -/
theorem tp_leg_skipped_for_zero_trigger :
    intentTpZero.tpTriggerPrice.isSome = true ∧
    tpLegOf env0 wallet0 intentTpZero = none := by
  decide

/-- C3 (amended): a TP (resp. SL) leg is constructed if and only if the
corresponding trigger price was supplied with a truthy value (a nonzero
number or nonempty string), and every constructed leg has
`reduceOnly = true` and the negation of the main order's `isLong`. -/
theorem tp_sl_legs_iff_truthy_trigger (env : Env) (wallet : String)
    (p : PlaceOrderParams) :
    (tpLegOf env wallet p).isSome = optTruthy p.tpTriggerPrice ∧
    (slLegOf env wallet p).isSome = optTruthy p.slTriggerPrice ∧
    (∀ o, tpLegOf env wallet p = some o →
      o.reduceOnly = true ∧
      o.isLong = !(buildMainOrder wallet p (mainSaltOf env)).isLong) ∧
    (∀ o, slLegOf env wallet p = some o →
      o.reduceOnly = true ∧
      o.isLong = !(buildMainOrder wallet p (mainSaltOf env)).isLong) := by
  refine ⟨?_, ?_, ?_, ?_⟩
  · by_cases h : optTruthy p.tpTriggerPrice <;> simp [tpLegOf, tpSaltOf, h]
  · by_cases h : optTruthy p.slTriggerPrice <;> simp [slLegOf, slSaltOf, h]
  · intro o ho
    rcases hs : tpSaltOf env p with _ | t
    · simp [tpLegOf, hs] at ho
    · simp [tpLegOf, hs] at ho
      subst ho
      exact ⟨rfl, rfl⟩
  · intro o ho
    rcases hs : slSaltOf env p with _ | t
    · simp [slLegOf, hs] at ho
    · simp [slLegOf, hs] at ho
      subst ho
      exact ⟨rfl, rfl⟩

theorem tp_sl_legs_iff_truthy_trigger_witness :
    (tpLegOf env0 wallet0 intentBoth).map Order.reduceOnly = some true ∧
    (tpLegOf env0 wallet0 intentBoth).map Order.isLong = some false ∧
    (slLegOf env0 wallet0 intentBoth).map Order.reduceOnly = some true ∧
    (slLegOf env0 wallet0 intentBoth).map Order.isLong = some false := by
  have h := tp_sl_legs_iff_truthy_trigger env0 wallet0 intentBoth
  have hmain : (buildMainOrder wallet0 intentBoth (mainSaltOf env0)).isLong = true := by
    decide
  rcases htp : tpLegOf env0 wallet0 intentBoth with _ | o
  · exact absurd (htp ▸ h.1) (by decide)
  · rcases hsl : slLegOf env0 wallet0 intentBoth with _ | o'
    · exact absurd (hsl ▸ h.2.1) (by decide)
    · have t1 := h.2.2.1 o htp
      have t2 := h.2.2.2 o' hsl
      refine ⟨?_, ?_, ?_, ?_⟩ <;>
        simp [htp, hsl, t1.1, t1.2, t2.1, t2.2, hmain]

/-- C4: a `cancelOrder` call with an absent or empty identifier list
fails with the validation message and issues no network request; a call
with a non-empty list (whose signing succeeds) submits exactly the
symbol, the JSON-encoded identifier list, the signature, and the acting
address defaulting to the caller's own wallet address. -/
theorem cancelOrder_empty_fails_nonempty_submits (env : Env) (wallet : String)
    (p : CancelOrderParams) :
    ((p.orderHashes = none ∨ p.orderHashes = some []) →
      cancelOrder env wallet p
        = (⟨false, none, some "Order hashes are required"⟩, [])) ∧
    (∀ hs sig, p.orderHashes = some hs → hs ≠ [] →
      env.sign (cancelOrderMessage hs) = .ok sig →
      (cancelOrder env wallet p).2
        = [Request.postForm CANCEL_ORDER [
            ("symbol", .str p.symbol),
            ("orderHashes", .str (jsonStringify (JSVal.arr (hs.map JSVal.str)))),
            ("signature", .str sig),
            ("parentAddress", .str (p.parentAddress.getD wallet))]]) := by
  constructor
  · rintro (h | h) <;> simp [cancelOrder, h, formatError]
  · intro hs sig hhs hne hsig
    have hempty : hs.isEmpty = false := by
      cases hs with
      | nil => exact absurd rfl hne
      | cons a as => rfl
    simp only [cancelOrder, hhs, hempty, hsig]
    rcases hR : env.cancelResp _ with m | resp
    · simp [hR]
    · by_cases hc : resp.code == 200 <;> simp [hR, hc]

theorem cancelOrder_empty_fails_nonempty_submits_witness :
    cancelOrder env0 wallet0 cancelEmpty
      = (⟨false, none, some "Order hashes are required"⟩, []) ∧
    (cancelOrder env0 wallet0 cancelOne).2
      = [Request.postForm CANCEL_ORDER [
          ("symbol", .str cancelOne.symbol),
          ("orderHashes", .str (jsonStringify (JSVal.arr (["0xhash1"].map JSVal.str)))),
          ("signature", .str "sig0"),
          ("parentAddress", .str (cancelOne.parentAddress.getD wallet0))]] :=
  ⟨(cancelOrder_empty_fails_nonempty_submits env0 wallet0 cancelEmpty).1 (Or.inr rfl),
   (cancelOrder_empty_fails_nonempty_submits env0 wallet0 cancelOne).2
     ["0xhash1"] "sig0" rfl (by decide) rfl⟩

/-- C5: for every MARKET-type intent the canonical main order has
`isLong` true exactly for BUY, the zero fixed-point price, the
fixed-point scaling of the supplied quantity, reduce-only false by
default, and the wire payload's price field is the empty string
(witnessed at the end-to-end scenario intent). -/
theorem market_order_canonical (env : Env) (wallet : String) (p : PlaceOrderParams)
    (h : p.orderType = .MARKET) :
    (buildMainOrder wallet p (mainSaltOf env)).isLong = (p.side == .BUY) ∧
    (buildMainOrder wallet p (mainSaltOf env)).price = 0 ∧
    (buildMainOrder wallet p (mainSaltOf env)).quantity = formatNormalToWeiBN p.quantity ∧
    (p.reduceOnly = none → (buildMainOrder wallet p (mainSaltOf env)).reduceOnly = false) ∧
    (∀ sig tpSig tpSalt slSig slSalt,
      ("price", JSVal.str "") ∈
        placeRequestParams wallet p (mainSaltOf env) sig tpSig tpSalt slSig slSalt) := by
  refine ⟨rfl, ?_, rfl, ?_, ?_⟩
  · simp [buildMainOrder, h]
  · intro hr
    simp [buildMainOrder, hr]
  · intro sig tpSig tpSalt slSig slSalt
    simp [placeRequestParams, h]

theorem market_order_canonical_witness :
    (buildMainOrder wallet0 intent5 (mainSaltOf env0)).price = 0 ∧
    (buildMainOrder wallet0 intent5 (mainSaltOf env0)).quantity
      = formatNormalToWeiBN intent5.quantity ∧
    (buildMainOrder wallet0 intent5 (mainSaltOf env0)).reduceOnly = false ∧
    (buildMainOrder wallet0 intent5 (mainSaltOf env0)).isLong = true ∧
    (buildMainOrder wallet0 intent5 (mainSaltOf env0)).quantity = 10000000 ∧
    ("price", JSVal.str "") ∈
      placeRequestParams wallet0 intent5 (mainSaltOf env0) "sig0" none none none none := by
  have h := market_order_canonical env0 wallet0 intent5 rfl
  exact ⟨h.2.1, h.2.2.1, h.2.2.2.1 rfl, by decide, by decide,
    h.2.2.2.2 "sig0" none none none none⟩

/-- C6: when a TP trigger price is supplied truthy and no explicit TP
order price is supplied, the TP leg's canonical price is the fixed-point
conversion of the trigger price when the TP order type is LIMIT and the
zero fixed-point value when it is MARKET. -/
theorem tp_leg_price_from_trigger (env : Env) (wallet : String)
    (p : PlaceOrderParams)
    (h1 : optTruthy p.tpTriggerPrice = true) (h2 : p.tpOrderPrice = none) :
    (p.tpOrderType.getD .MARKET = .LIMIT →
      (tpLegOf env wallet p).map Order.price
        = some (formatNormalToWeiBN (p.tpTriggerPrice.getD (.str "")))) ∧
    (p.tpOrderType.getD .MARKET = .MARKET →
      (tpLegOf env wallet p).map Order.price = some 0) := by
  constructor <;> intro ht <;>
    simp [tpLegOf, tpSaltOf, h1, buildTpOrder, ht, h2, jsOr, JSNum.truthy]

theorem tp_leg_price_from_trigger_witness :
    (tpLegOf env0 wallet0 intentTpLimit).map Order.price
      = some (formatNormalToWeiBN (intentTpLimit.tpTriggerPrice.getD (.str ""))) ∧
    (tpLegOf env0 wallet0 intentTpLimit).map Order.price = some 51000000000000 ∧
    (tpLegOf env0 wallet0 intentTpMarket).map Order.price = some 0 :=
  ⟨(tp_leg_price_from_trigger env0 wallet0 intentTpLimit (by decide) rfl).1 rfl,
   by decide,
   (tp_leg_price_from_trigger env0 wallet0 intentTpMarket (by decide) rfl).2 rfl⟩

/-- C7: on a code-200 response, `getPositions` returns the same flat
list whether the server's data field is a bare list or a wrapped
envelope containing that list. -/
theorem getPositions_normalizes_shapes (env env' : Env) (sym : Option String)
    (xs : List Position) (m m' : Option String)
    (h : env.positionsResp (symbolQuery sym) = .ok ⟨200, .arr xs, m⟩)
    (h' : env'.positionsResp (symbolQuery sym) = .ok ⟨200, .wrapped (some xs), m'⟩) :
    (getPositions env sym).1 = (getPositions env' sym).1 ∧
    (getPositions env sym).1 = ⟨true, some xs, none⟩ := by
  constructor <;> simp [getPositions, h, h', RespData.normalize]

theorem getPositions_normalizes_shapes_witness :
    (getPositions envPosBare none).1 = (getPositions envPosWrapped none).1 ∧
    (getPositions envPosBare none).1 = ⟨true, some [⟨"pos1"⟩], none⟩ :=
  getPositions_normalizes_shapes envPosBare envPosWrapped none [⟨"pos1"⟩] none none rfl rfl

/-- C8: the form body serialized by `postForm` contains exactly the keys
whose value is neither undefined nor null, each such value rendered to
its string form — JSON-stringified when it is object-typed — and
URL-encoded as form fields. -/
theorem postForm_serializes_exactly_non_nullish (data : List (String × JSVal)) :
    postFormEntries data
        = (data.filter (fun kv => !isNullish kv.2)).map
            (fun kv => (kv.1, formFieldValue kv.2)) ∧
      postFormBody data
        = joinSep "&"
            (((data.filter (fun kv => !isNullish kv.2)).map
                (fun kv => (kv.1, formFieldValue kv.2))).map
              (fun kv => formEncode kv.1 ++ "=" ++ formEncode kv.2)) := by
  have h1 : postFormEntries data
      = (data.filter (fun kv => !isNullish kv.2)).map
          (fun kv => (kv.1, formFieldValue kv.2)) := by
    simpa [postFormEntries] using postFormEntries_foldl data []
  refine ⟨h1, ?_⟩
  unfold postFormBody urlsearchToString
  rw [h1]

/-- C9: the presence validation of `placeOrder` uses JS truthiness, so a
supplied zero quantity, zero leverage or empty symbol fails with the
missing-parameter message, and a LIMIT intent whose supplied price is
the number `0` or the empty string fails with the price-required
message — in each case with no network request. -/
theorem placeOrder_truthiness_validation (env : Env) (wallet : String)
    (p : PlaceOrderParams) :
    (p.quantity = .num 0 →
      placeOrder env wallet p
        = (⟨false, none, some "Missing required order parameters"⟩, [])) ∧
    (p.leverage = .num 0 →
      placeOrder env wallet p
        = (⟨false, none, some "Missing required order parameters"⟩, [])) ∧
    (p.symbol = "" →
      placeOrder env wallet p
        = (⟨false, none, some "Missing required order parameters"⟩, [])) ∧
    (p.orderType = .LIMIT → p.symbol ≠ "" → p.quantity.truthy = true →
      p.leverage.truthy = true →
      (p.price = some (.num 0) ∨ p.price = some (.str "")) →
      placeOrder env wallet p
        = (⟨false, none, some "Price is required for LIMIT orders"⟩, [])) := by
  refine ⟨?_, ?_, ?_, ?_⟩
  · intro h
    have hm : missingParams p = true := by
      simp [missingParams, h, JSNum.truthy]
    simp [placeOrder, hm, formatError]
  · intro h
    have hm : missingParams p = true := by
      simp [missingParams, h, JSNum.truthy]
    simp [placeOrder, hm, formatError]
  · intro h
    have hm : missingParams p = true := by
      simp [missingParams, h]
    simp [placeOrder, hm, formatError]
  · intro ht hsym hq hl hp
    have hm : missingParams p = false := by
      simp [missingParams, hq, hl, hsym]
    have hp2 : optTruthy p.price = false := by
      rcases hp with h | h <;> simp [h, optTruthy, JSNum.truthy]
    simp [placeOrder, hm, ht, hp2, formatError]

theorem placeOrder_truthiness_validation_witness :
    placeOrder env0 wallet0 intentQtyZero
      = (⟨false, none, some "Missing required order parameters"⟩, []) ∧
    placeOrder env0 wallet0 intentLevZero
      = (⟨false, none, some "Missing required order parameters"⟩, []) ∧
    placeOrder env0 wallet0 intentNoSymbol
      = (⟨false, none, some "Missing required order parameters"⟩, []) ∧
    placeOrder env0 wallet0 intentLimitPriceZero
      = (⟨false, none, some "Price is required for LIMIT orders"⟩, []) ∧
    placeOrder env0 wallet0 intentLimitPriceEmpty
      = (⟨false, none, some "Price is required for LIMIT orders"⟩, []) :=
  ⟨(placeOrder_truthiness_validation env0 wallet0 intentQtyZero).1 rfl,
   (placeOrder_truthiness_validation env0 wallet0 intentLevZero).2.1 rfl,
   (placeOrder_truthiness_validation env0 wallet0 intentNoSymbol).2.2.1 rfl,
   (placeOrder_truthiness_validation env0 wallet0 intentLimitPriceZero).2.2.2
     rfl (by decide) (by decide) (by decide) (Or.inl rfl),
   (placeOrder_truthiness_validation env0 wallet0 intentLimitPriceEmpty).2.2.2
     rfl (by decide) (by decide) (by decide) (Or.inr rfl)⟩

/-- C10: `getAccountInfo` succeeds only on a code-200 response carrying
a data object; a code-200 response without data yields a failure result,
and in the success case every absent numeric field is replaced by the
string `"0"`. -/
theorem getAccountInfo_gate_and_defaults (env : Env) :
    (∀ resp, env.acctResp = .ok resp → (getAccountInfo env).1.status = true →
      resp.code = 200 ∧ resp.data.isSome = true) ∧
    (∀ m, env.acctResp = .exc m → (getAccountInfo env).1.status = false) ∧
    (∀ resp, env.acctResp = .ok resp → resp.code = 200 → resp.data = none →
      (getAccountInfo env).1
        = ⟨false, none, some (msgOr resp.message "Failed to get account info")⟩) ∧
    (∀ resp d, env.acctResp = .ok resp → resp.code = 200 → resp.data = some d →
      (getAccountInfo env).1
        = ⟨true, some
            { walletBalance := orZero d.walletBalance
              totalUnrealizedProfit := orZero d.totalUnrealizedProfit
              accountValue := orZero d.accountValue
              freeCollateral := orZero d.freeCollateral
              totalMargin := orZero d.totalMargin }, none⟩) ∧
    orZero none = "0" := by
  refine ⟨?_, ?_, ?_, ?_, rfl⟩
  · intro resp hE hs
    rcases hd : resp.data with _ | d
    · simp [getAccountInfo, hE, hd] at hs
    · by_cases hc : resp.code = 200
      · exact ⟨hc, by simp [hd]⟩
      · have hcf : (resp.code == 200) = false := by simpa using hc
        simp [getAccountInfo, hE, hd, hcf] at hs
  · intro m hE
    simp [getAccountInfo, hE]
  · intro resp hE hc hd
    simp [getAccountInfo, hE, hc, hd]
  · intro resp d hE hc hd
    simp [getAccountInfo, hE, hc, hd]

theorem getAccountInfo_gate_and_defaults_witness :
    (200 = 200 ∧ (some acctD).isSome = true) ∧
    (getAccountInfo envAcctNoData).1
      = ⟨false, none, some (msgOr (some "nope") "Failed to get account info")⟩ ∧
    (getAccountInfo envAcctD).1
      = ⟨true, some
          { walletBalance := orZero acctD.walletBalance
            totalUnrealizedProfit := orZero acctD.totalUnrealizedProfit
            accountValue := orZero acctD.accountValue
            freeCollateral := orZero acctD.freeCollateral
            totalMargin := orZero acctD.totalMargin }, none⟩ :=
  ⟨(getAccountInfo_gate_and_defaults envAcctD).1 ⟨200, some acctD, none⟩ rfl (by decide),
   (getAccountInfo_gate_and_defaults envAcctNoData).2.2.1 ⟨200, none, some "nope"⟩ rfl rfl rfl,
   (getAccountInfo_gate_and_defaults envAcctD).2.2.2.1 ⟨200, some acctD, none⟩ acctD rfl rfl rfl⟩

end DipCoinPerp
